import Mathlib

/-!
Verification of the contact-book assistant (`contacts_book_classes.py`).

Python strings are modelled as `List Char` (`PyStr`); Python exceptions as an
explicit `Except PyErr` monad; machine state (the `ADDRESSBOOK` dict) is passed
explicitly as an association list preserving insertion order.  The `input()`
stream consumed by the interactive `add_phone` handler is modelled as a list of
pending reply lines.  Similarity scores computed by `difflib.SequenceMatcher`
(floats `2*M/T` in Python) are modelled as exact fractions `(2*M, T)` compared
by cross-multiplication; this is exact for all inputs far below the size at
which IEEE-754 rounding could merge two distinct ratios.
-/

set_option autoImplicit false

abbrev PyStr := List Char

/-- Python exceptions relevant to this program.  `valueErrorBare` is a
`raise ValueError` with no message (its `args` tuple is empty). -/
inductive PyErr where
  | indexError
  | valueError (msg : PyStr)
  | valueErrorBare
  | keyError
  | typeError
  | eofError
  deriving DecidableEq, Repr

deriving instance DecidableEq for Except

/-- Python whitespace characters stripped by `str.strip()` (ASCII subset). -/
def pyIsSpace (c : Char) : Bool :=
  c == ' ' || c == '\t' || c == '\n' || c == '\x0d' || c == '\x0b' || c == '\x0c'

/-- `str.strip()`: drop whitespace from both ends. -/
def pyStrip (s : PyStr) : PyStr :=
  ((s.dropWhile pyIsSpace).reverse.dropWhile pyIsSpace).reverse

/-- `str.lower()` (ASCII subset of Python's Unicode lowering). -/
def pyLower (s : PyStr) : PyStr :=
  s.map Char.toLower

/-- `str.startswith(pat)`. -/
def pyStartsWith (s pat : PyStr) : Bool :=
  List.isPrefixOf pat s

/-- Python's `needle in haystack` substring test. -/
def pyIn (needle hay : PyStr) : Bool :=
  (List.range (hay.length + 1)).any (fun i => List.isPrefixOf needle (hay.drop i))

/-- `str.split(" ")`: split on every single space, keeping empty pieces
(`"".split(" ") == [""]`). -/
def pySplitSp : PyStr → List PyStr
  | [] => [[]]
  | c :: rest =>
    if c = ' ' then [] :: pySplitSp rest
    else
      match pySplitSp rest with
      | g :: gs => (c :: g) :: gs
      | [] => [[c]]

/-- Splitting on a single character (used for `_strptime`'s literal dashes). -/
def pySplitChar (sep : Char) : PyStr → List PyStr
  | [] => [[]]
  | c :: rest =>
    if c = sep then [] :: pySplitChar sep rest
    else
      match pySplitChar sep rest with
      | g :: gs => (c :: g) :: gs
      | [] => [[c]]

/-- `str.replace(pat, rep)` for an empty pattern: Python inserts `rep` at every
position, `"ab".replace("", "X") == "XaXbX"`. -/
def pyReplaceEmpty (rep : PyStr) : PyStr → PyStr
  | [] => rep
  | c :: rest => rep ++ c :: pyReplaceEmpty rep rest

/-- `str.replace(pat, rep)` for a nonempty pattern: replace every
non-overlapping occurrence, scanning left to right.  Structural recursion on
fuel (so the kernel can evaluate it); every step consumes at least one
character, so `s.length` fuel is always enough. -/
def pyReplaceNeAux (pat rep : PyStr) : Nat → PyStr → PyStr
  | 0, s => s
  | _ + 1, [] => []
  | fuel + 1, c :: rest =>
    if List.isPrefixOf pat (c :: rest) ∧ pat ≠ [] then
      rep ++ pyReplaceNeAux pat rep fuel (List.drop (pat.length - 1) rest)
    else
      c :: pyReplaceNeAux pat rep fuel rest

def pyReplaceNe (pat rep s : PyStr) : PyStr :=
  pyReplaceNeAux pat rep s.length s

/-- `str.replace(pat, rep)`. -/
def pyReplace (pat rep s : PyStr) : PyStr :=
  if pat = [] then pyReplaceEmpty rep s else pyReplaceNe pat rep s

/-- Digit test for a character, as Python's `str.isdigit` behaves on the
decimal digits (`Numeric_Type=Decimal`); modelled on the ASCII digits. -/
def isDigitCh (c : Char) : Bool :=
  48 ≤ c.toNat && c.toNat ≤ 57

/-- Characters with Unicode `Numeric_Type=Numeric` that are accepted by
Python's `str.isnumeric` but rejected by `str.isdigit`; modelled on the
vulgar-fraction code points U+00BC..U+00BE. -/
def isNumericOnlyCh (c : Char) : Bool :=
  c == '¼' || c == '½' || c == '¾'

/-- Character test backing Python's `str.isnumeric`. -/
def isNumericCh (c : Char) : Bool :=
  isDigitCh c || isNumericOnlyCh c

/-- `str.isnumeric()`: nonempty and all characters numeric. -/
def pyIsNumeric (s : PyStr) : Bool :=
  !s.isEmpty && s.all isNumericCh

/-- `str.isdigit()` (the predicate named by the specification). -/
def pyIsDigit (s : PyStr) : Bool :=
  !s.isEmpty && s.all isDigitCh

/-- Decimal digits of a nonnegative integer, as Python renders `int`.
Structural recursion on fuel; `n` itself is (far) more than enough fuel, and
the fuel-0 fallback coincides with the answer for `n < 10`. -/
def natToStrAux : Nat → Nat → PyStr
  | 0, n => [Nat.digitChar (n % 10)]
  | fuel + 1, n =>
    if n < 10 then [Nat.digitChar n]
    else natToStrAux fuel (n / 10) ++ [Nat.digitChar (n % 10)]

def natToStr (n : Nat) : PyStr :=
  natToStrAux n n

/-- Python's rendering of an `int` (possibly negative). -/
def intToStr (i : Int) : PyStr :=
  if i < 0 then '-' :: natToStr i.natAbs else natToStr i.toNat

/-- Two-digit zero padding, as `strftime` renders `%d` and `%m`. -/
def pad2 (n : Nat) : PyStr :=
  if n < 10 then '0' :: natToStr n else natToStr n

/-- Numeric value of a list of digit characters. -/
def parseNatDigits (s : PyStr) : Nat :=
  s.foldl (fun a c => 10 * a + (c.toNat - 48)) 0

/-- `", ".join(xs)`-style joining with a separator. -/
def joinSep (sep : PyStr) : List PyStr → PyStr
  | [] => []
  | [x] => x
  | x :: y :: rest => x ++ sep ++ joinSep sep (y :: rest)

/-- `int(s)` for base 10: strip whitespace, optional sign, then digits.
(Underscore separators accepted by CPython are not modelled; every claim
below is insensitive to that refinement.) -/
def pyInt (s : PyStr) : Except PyErr Int :=
  let t := pyStrip s
  let core : PyStr × Bool :=
    match t with
    | '-' :: rest => (rest, true)
    | '+' :: rest => (rest, false)
    | _ => (t, false)
  if core.1 ≠ [] ∧ core.1.all isDigitCh then
    .ok (if core.2 then -(parseNatDigits core.1 : Int) else (parseNatDigits core.1 : Int))
  else
    .error (.valueError ("invalid literal for int() with base 10: \x27".toList ++ s ++ "\x27".toList))

/-! ### Dates (`datetime.date`) -/

/-- Proleptic Gregorian date, as `datetime.date`. -/
structure PyDate where
  year : Nat
  month : Nat
  day : Nat
  deriving DecidableEq, Repr

/-- Gregorian leap-year rule (`calendar.isleap`). -/
def isLeap (y : Nat) : Bool :=
  y % 4 == 0 && (y % 100 != 0 || y % 400 == 0)

/-- Length of a month, as `calendar.monthrange` / `datetime`. -/
def daysInMonth (y m : Nat) : Nat :=
  match m with
  | 1 => 31 | 2 => if isLeap y then 29 else 28 | 3 => 31 | 4 => 30
  | 5 => 31 | 6 => 30 | 7 => 31 | 8 => 31 | 9 => 30 | 10 => 31
  | 11 => 30 | 12 => 31 | _ => 0

/-- Days elapsed before the first of month `m` in year `y`
(`datetime._days_before_month`). -/
def daysBeforeMonth (y m : Nat) : Nat :=
  (match m with
   | 1 => 0 | 2 => 31 | 3 => 59 | 4 => 90 | 5 => 120 | 6 => 151
   | 7 => 181 | 8 => 212 | 9 => 243 | 10 => 273 | 11 => 304 | 12 => 334
   | _ => 0)
  + (if 3 ≤ m ∧ isLeap y then 1 else 0)

/-- Days elapsed before January 1 of year `y` (`datetime._days_before_year`). -/
def daysBeforeYear (y : Nat) : Nat :=
  365 * (y - 1) + (y - 1) / 4 + (y - 1) / 400 - (y - 1) / 100

/-- `date.toordinal()`. -/
def toOrdinal (d : PyDate) : Nat :=
  daysBeforeYear d.year + daysBeforeMonth d.year d.month + d.day

/-- The dates `datetime.date` can represent (`MINYEAR = 1`, `MAXYEAR = 9999`). -/
def validDate (d : PyDate) : Prop :=
  1 ≤ d.year ∧ d.year ≤ 9999 ∧ 1 ≤ d.month ∧ d.month ≤ 12 ∧
    1 ≤ d.day ∧ d.day ≤ daysInMonth d.year d.month

instance (d : PyDate) : Decidable (validDate d) := by
  unfold validDate
  infer_instance

/-- `date.__gt__`: lexicographic comparison of `(year, month, day)`. -/
def dateGT (a b : PyDate) : Bool :=
  a.year > b.year ||
    (a.year == b.year &&
      (a.month > b.month || (a.month == b.month && a.day > b.day)))

/-- `(a - b).days` for two dates. -/
def dateSub (a b : PyDate) : Int :=
  (toOrdinal a : Int) - (toOrdinal b : Int)

/-- `date.replace(year=y)`: same month and day, validated anew; raises
`ValueError` (message from `datetime._check_date_fields`) when the result is
not a real date, e.g. February 29 of a non-leap year. -/
def dateReplaceYear (y : Nat) (d : PyDate) : Except PyErr PyDate :=
  if validDate ⟨y, d.month, d.day⟩ then .ok ⟨y, d.month, d.day⟩
  else .error (.valueError ("day is out of range for month".toList))

/-- Token accepted by `_strptime`'s `%d` directive: the regex
`3[01]|[12]\d|0[1-9]|[1-9]`, i.e. one or two digits valued 1..31. -/
def dayTok (s : PyStr) : Bool :=
  s.all isDigitCh && (s.length == 1 || s.length == 2) &&
    1 ≤ parseNatDigits s && parseNatDigits s ≤ 31

/-- Token accepted by `%m`: `1[0-2]|0[1-9]|[1-9]`. -/
def monTok (s : PyStr) : Bool :=
  s.all isDigitCh && (s.length == 1 || s.length == 2) &&
    1 ≤ parseNatDigits s && parseNatDigits s ≤ 12

/-- Token accepted by `%Y`: exactly four digits. -/
def yearTok (s : PyStr) : Bool :=
  s.all isDigitCh && s.length == 4

/-- `datetime.strptime(s, "%d-%m-%Y").date()`, collapsed to an `Option`:
`none` covers every failure (`_strptime` regex mismatch or an impossible
calendar date), which the caller's bare `except` treats uniformly. -/
def pyStrptimeDMY (s : PyStr) : Option PyDate :=
  match pySplitChar '-' s with
  | [ds, ms, ys] =>
    if dayTok ds ∧ monTok ms ∧ yearTok ys then
      if validDate ⟨parseNatDigits ys, parseNatDigits ms, parseNatDigits ds⟩ then
        some ⟨parseNatDigits ys, parseNatDigits ms, parseNatDigits ds⟩
      else none
    else none
  | _ => none

/-- `date.strftime("%d-%m-%Y")`: day and month zero-padded to two digits;
`%Y` rendered with no zero padding, as glibc does on Linux (CPython
bpo-13305). -/
def pyStrftimeDMY (d : PyDate) : PyStr :=
  pad2 d.day ++ "-".toList ++ pad2 d.month ++ "-".toList ++ natToStr d.year

/-! ### Field validators (`Field` subclasses) -/

/-- `Phone.value` setter (`contacts_book_classes.py` lines 51-66): the
constructed value, or the `ValueError` the setter raises. -/
def Phone (s : PyStr) : Except PyErr PyStr :=
  if s.length ≠ 12 then
    .error (.valueError ("Phone must contains 12 symbols.".toList))
  else if ¬ pyStartsWith s ("380".toList) then
    .error (.valueError ("Phone must starts from \x27380\x27.".toList))
  else if ¬ pyIsNumeric s then
    .error (.valueError ("Phone number must include digits only.".toList))
  else
    .ok s

/-- `Birthday.value` setter (lines 69-91): parse `"%d-%m-%Y"`, reject dates
after `today`. -/
def Birthday (today : PyDate) (s : PyStr) : Except PyErr PyDate :=
  match pyStrptimeDMY s with
  | none => .error (.valueError ("Birthday must be in a format \x27DD-MM-YYYY\x27".toList))
  | some d =>
    if dateGT d today then
      .error (.valueError ("Birthday can\x27t be bigger than current date.".toList))
    else
      .ok d

/-- Existence of a match of `re.findall(r"\b[A-Za-z][\w+.]+@\w+[.][a-z]{2,3}", s)`:
the pattern is unanchored, so the `Email` setter only asks whether some
position starts a match.  `\w` is modelled as ASCII alphanumeric or
underscore. -/
def isWordCh (c : Char) : Bool :=
  c.isAlpha || isDigitCh c || c == '_'

def isLocalCh (c : Char) : Bool :=
  isWordCh c || c == '+' || c == '.'

def isLowerAlpha (c : Char) : Bool :=
  97 ≤ c.toNat && c.toNat ≤ 122

/-- A match of the email regex starting exactly at position `i` of `s`,
with `a` characters of local part after the first letter (`[\w+.]+`),
`b` characters of domain (`\w+`) and `t` letters of TLD (`[a-z]{2,3}`). -/
def emailMatchAt (s : PyStr) (i a b t : Nat) : Bool :=
  (i == 0 || !(isWordCh (s.getD (i - 1) ' '))) &&
  (s.getD i ' ').isAlpha &&
  1 ≤ a && (List.range a).all (fun k => isLocalCh (s.getD (i + 1 + k) ' ')) &&
  s.getD (i + 1 + a) ' ' == '@' &&
  1 ≤ b && (List.range b).all (fun k => isWordCh (s.getD (i + 2 + a + k) ' ')) &&
  s.getD (i + 2 + a + b) ' ' == '.' &&
  (t == 2 || t == 3) &&
  (List.range t).all (fun k => isLowerAlpha (s.getD (i + 3 + a + b + k) ' ')) &&
  i + 3 + a + b + t ≤ s.length

/-- Truthiness of `re.findall(...)` in the `Email.value` setter. -/
def emailMatches (s : PyStr) : Bool :=
  (List.range (s.length + 1)).any fun i =>
    (List.range (s.length + 1)).any fun a =>
      (List.range (s.length + 1)).any fun b =>
        [2, 3].any fun t => emailMatchAt s i a b t

/-- `Email.value` setter (lines 94-111). -/
def Email (s : PyStr) : Except PyErr PyStr :=
  if ¬ emailMatches s then
    .error (.valueError ("Wrong format. Example: \x22mymail@gmail.com\x22".toList))
  else
    .ok s

/-! ### `Record` -/

/-- A `Record`: name `Field`, phone list, optional birthday and email.  Field
objects hold their (already validated) raw values, so they are modelled by the
values themselves. -/
structure RecordS where
  name : PyStr
  phones : List PyStr
  birthday : Option PyDate
  email : Option PyStr
  deriving DecidableEq, Repr

/-- `f"{birthday}"`: `str(None) == "None"`, otherwise `Birthday.__str__`
renders via `strftime("%d-%m-%Y")`. -/
def strOptBirthday : Option PyDate → PyStr
  | none => "None".toList
  | some d => pyStrftimeDMY d

/-- `f"{email}"`: `"None"` or the stored text. -/
def strOptEmail : Option PyStr → PyStr
  | none => "None".toList
  | some e => e

/-- `Record.add_phone` (lines 132-134): append and confirm. -/
def RecordS.add_phone (r : RecordS) (p : PyStr) : PyStr × RecordS :=
  ("Phone ".toList ++ p ++ " was added successfully".toList,
   { r with phones := r.phones ++ [p] })

def changedMsg (oldp newp : PyStr) : PyStr :=
  "Phone ".toList ++ oldp ++ " was successfully changed to ".toList ++ newp

def notFoundInRecordMsg (oldp : PyStr) : PyStr :=
  "Phone number \x27".toList ++ oldp ++ "\x27 was not found in the record".toList

/-- `Record.change` (lines 136-142).  Both `return` statements sit inside the
first iteration of the `for` loop, so only the first phone is ever compared;
`list.remove` deletes that first element and the new phone is appended at the
end.  With an empty phone list the loop body never runs and the method returns
`None` — hence the `Option` result. -/
def RecordS.change (r : RecordS) (oldp newp : PyStr) : Option PyStr × RecordS :=
  match r.phones with
  | [] => (none, r)
  | p :: rest =>
    if p = oldp then
      (some (changedMsg oldp newp), { r with phones := rest ++ [newp] })
    else
      (some (notFoundInRecordMsg oldp), r)

/-- Remove the first occurrence of `v`, reporting whether one was found. -/
def removeFirst (v : PyStr) : List PyStr → Option (List PyStr)
  | [] => none
  | p :: rest =>
    if p = v then some rest
    else (removeFirst v rest).map (fun l => p :: l)

/-- `Record.remove_phone` (lines 177-183): re-validate the raw text as a
`Phone` (propagating its `ValueError`), then delete the first value-equal
phone, or report that the number was not found. -/
def RecordS.remove_phone (r : RecordS) (s : PyStr) : Except PyErr (PyStr × RecordS) := do
  let v ← Phone s
  match removeFirst v r.phones with
  | some l =>
    .ok ("Phone ".toList ++ v ++ " was successfully removed from ".toList ++ r.name,
         { r with phones := l })
  | none =>
    .ok ("Number ".toList ++ v ++ " not found".toList, r)

/-- `Record.add_birthday` (lines 144-145). -/
def RecordS.add_birthday (r : RecordS) (b : PyDate) : RecordS :=
  { r with birthday := some b }

/-- `Record.add_email` (lines 147-148). -/
def RecordS.add_email (r : RecordS) (e : PyStr) : RecordS :=
  { r with email := some e }

def bdayInDaysMsg (name : PyStr) (delta : Int) : PyStr :=
  name ++ "\x27s birthday will be in ".toList ++ intToStr delta ++ " days".toList

def bdayUnknownMsg (name : PyStr) : PyStr :=
  name ++ "\x27s birthday is unknown".toList

/-- `Record.days_to_birthday` (lines 150-166).  `bd.replace(year=...)` can
raise `ValueError` (February 29 in a year without one), which propagates out
of the method. -/
def RecordS.days_to_birthday (today : PyDate) (r : RecordS) : Except PyErr PyStr :=
  match r.birthday with
  | none => .ok (bdayUnknownMsg r.name)
  | some bd => do
    let thisYearBd ← dateReplaceYear today.year bd
    let delta := dateSub thisYearBd today
    if delta > 0 then
      .ok (bdayInDaysMsg r.name delta)
    else
      let nextYearBd ← dateReplaceYear (today.year + 1) thisYearBd
      .ok (bdayInDaysMsg r.name (dateSub nextYearBd today))

/-! ### `AddressBook` -/

/-- The `AddressBook` dict: insertion-ordered map from name to record. -/
abbrev Book := List (PyStr × RecordS)

def dHas (b : Book) (k : PyStr) : Bool :=
  b.any (fun e => e.1 = k)

def dGet (b : Book) (k : PyStr) : Option RecordS :=
  (b.find? (fun e => e.1 = k)).map Prod.snd

/-- `dict.__setitem__`: overwrite in place, or append a new key. -/
def dSet (b : Book) (k : PyStr) (v : RecordS) : Book :=
  if dHas b k then b.map (fun e => if e.1 = k then (k, v) else e)
  else b ++ [(k, v)]

/-- `dict.pop(k, None)`. -/
def dPop (b : Book) (k : PyStr) : Book :=
  b.filter (fun e => ¬ e.1 = k)

/-- One line written by `AddressBook.search_in_file` (lines 202, 206). -/
def searchLine (r : RecordS) : PyStr :=
  "Name: ".toList ++ r.name ++ " Birthday: ".toList ++ strOptBirthday r.birthday
    ++ " Phone: ".toList ++ joinSep (",".toList) r.phones ++ "\n".toList

/-- `AddressBook.search_in_file` (lines 198-207): accumulate a line for a
name match, otherwise one line per phone containing the query (the inner
loop has no `break`).  Only the query is lowercased on the phone side. -/
def search_in_file (b : Book) (data : PyStr) : PyStr :=
  b.foldl
    (fun res e =>
      if pyIn (pyLower data) (pyLower e.2.name) then
        res ++ searchLine e.2
      else
        e.2.phones.foldl
          (fun res2 ph => if pyIn (pyLower data) ph then res2 ++ searchLine e.2 else res2)
          res)
    []

/-- `AddressBook.add_record` (lines 209-210). -/
def add_record (b : Book) (r : RecordS) : Book :=
  dSet b r.name r

/-- `AddressBook.remove_record` (lines 212-213). -/
def remove_record (b : Book) (r : RecordS) : Book :=
  dPop b r.name

/-- `AddressBook.show_one_record` (lines 215-216); `KeyError` when absent. -/
def show_one_record (b : Book) (name : PyStr) : Except PyErr PyStr :=
  match dGet b name with
  | none => .error .keyError
  | some r =>
    .ok ("Name: ".toList ++ name ++ "; Birthday: ".toList ++ strOptBirthday r.birthday
      ++ "; Phone: ".toList ++ joinSep (", ".toList) r.phones
      ++ "; Email: ".toList ++ strOptEmail r.email)

/-- `AddressBook.show_all_records` (lines 218-222). -/
def show_all_records (b : Book) : PyStr :=
  joinSep ("\n".toList)
    (b.map (fun e =>
      "Name: ".toList ++ e.2.name ++ " Birthday: ".toList ++ strOptBirthday e.2.birthday
        ++ "; Phone: ".toList ++ joinSep (", ".toList) e.2.phones
        ++ " Email: ".toList ++ strOptEmail e.2.email))

/-- `AddressBook.change_record` (lines 224-227): look the name up, apply
`Record.change` and discard its message; do nothing when the name is
absent. -/
def change_record (b : Book) (username oldp newp : PyStr) : Book :=
  match dGet b username with
  | some r => dSet b username (RecordS.change r oldp newp).2
  | none => b

/-- `AddressBook.iterator` (lines 229-240): a single `yield` producing the
first `min(n, size)` record lines (none when `n <= 0`). -/
def iteratorStr (b : Book) (n : Int) : PyStr :=
  let n' : Int := if n > (b.length : Int) then (b.length : Int) else n
  ((b.take n'.toNat).map (fun e =>
    e.2.name ++ " (B-day: ".toList ++ strOptBirthday e.2.birthday ++ "): ".toList
      ++ joinSep (", ".toList) e.2.phones ++ "\n".toList)).flatten

/-! ### `difflib.SequenceMatcher` (ratio computation)

`SequenceMatcher(None, a, b)` with short strings: no junk, and autojunk's
popularity filter is inert because `len(b) < 200`, so `b2j` maps each
character to the ascending list of all of its positions in `b`.  Python's
`j2len` dict is modelled as a shadowing association list. -/

def b2j (b : PyStr) (c : Char) : List Nat :=
  (List.range b.length).filter (fun j => b.getD j ' ' == c)

def jGet (l : List (Nat × Nat)) (k : Nat) : Nat :=
  match l.find? (fun p => p.1 == k) with
  | some p => p.2
  | none => 0

def jSet (l : List (Nat × Nat)) (k v : Nat) : List (Nat × Nat) :=
  (k, v) :: l

/-- Inner loop of `find_longest_match` over `b2j[a[i]]` (ascending), with the
`continue` for `j < blo` and the `break` for `j >= bhi`.  In Python `j - 1`
with `j == 0` is `-1`, a guaranteed dict miss. -/
def flmInner (blo bhi i : Nat) (j2len : List (Nat × Nat)) :
    List Nat → List (Nat × Nat) → Nat × Nat × Nat → List (Nat × Nat) × (Nat × Nat × Nat)
  | [], newj2len, best => (newj2len, best)
  | j :: js, newj2len, best =>
    if j < blo then flmInner blo bhi i j2len js newj2len best
    else if bhi ≤ j then (newj2len, best)
    else
      let k := (if j = 0 then 0 else jGet j2len (j - 1)) + 1
      let best' := if k > best.2.2 then (i + 1 - k, j + 1 - k, k) else best
      flmInner blo bhi i j2len js (jSet newj2len j k) best'

/-- Outer loop of `find_longest_match` over `i in range(alo, ahi)`. -/
def flmOuter (a b : PyStr) (blo bhi : Nat) :
    List Nat → List (Nat × Nat) → Nat × Nat × Nat → Nat × Nat × Nat
  | [], _, best => best
  | i :: is, j2len, best =>
    let r := flmInner blo bhi i j2len (b2j b (a.getD i ' ')) [] best
    flmOuter a b blo bhi is r.1 r.2

def chEq (a : PyStr) (i : Nat) (b : PyStr) (j : Nat) : Bool :=
  match a.get? i, b.get? j with
  | some x, some y => x == y
  | _, _ => false

/-- The first post-loop extension of `find_longest_match` (junk predicate is
constant false here).  Fuel-structural; `besti` iterations are always
enough since `besti` decreases towards `alo`. -/
def extendLeft (a b : PyStr) (alo blo : Nat) :
    Nat → Nat → Nat → Nat → Nat × Nat × Nat
  | 0, besti, bestj, bestsize => (besti, bestj, bestsize)
  | fuel + 1, besti, bestj, bestsize =>
    if alo < besti ∧ blo < bestj ∧ chEq a (besti - 1) b (bestj - 1) then
      extendLeft a b alo blo fuel (besti - 1) (bestj - 1) (bestsize + 1)
    else
      (besti, bestj, bestsize)

/-- The second post-loop extension.  Fuel-structural; `ahi` iterations are
always enough since `besti + bestsize` grows towards `ahi`. -/
def extendRight (a b : PyStr) (ahi bhi besti bestj : Nat) : Nat → Nat → Nat
  | 0, bestsize => bestsize
  | fuel + 1, bestsize =>
    if besti + bestsize < ahi ∧ bestj + bestsize < bhi ∧
        chEq a (besti + bestsize) b (bestj + bestsize) then
      extendRight a b ahi bhi besti bestj fuel (bestsize + 1)
    else
      bestsize

/-- `SequenceMatcher.find_longest_match(alo, ahi, blo, bhi)`; its last two
(junk-driven) extension loops never run because `isbjunk` is constant false
for plain string arguments this short. -/
def findLongestMatch (a b : PyStr) (alo ahi blo bhi : Nat) : Nat × Nat × Nat :=
  let dp := flmOuter a b blo bhi (List.range' alo (ahi - alo)) [] (alo, blo, 0)
  let l := extendLeft a b alo blo dp.1 dp.1 dp.2.1 dp.2.2
  (l.1, l.2.1, extendRight a b ahi bhi l.1 l.2.1 ahi l.2.2)

/-- Total size of the matching blocks (`get_matching_blocks`), written with
recursion fuel; `a.length + b.length + 1` is enough fuel because every
recursive call strictly shrinks the combined interval. -/
def matchSum (a b : PyStr) : Nat → Nat → Nat → Nat → Nat → Nat
  | 0, _, _, _, _ => 0
  | fuel + 1, alo, ahi, blo, bhi =>
    let m := findLongestMatch a b alo ahi blo bhi
    if m.2.2 = 0 then 0
    else
      matchSum a b fuel alo m.1 blo m.2.1 + m.2.2 +
        matchSum a b fuel (m.1 + m.2.2) ahi (m.2.1 + m.2.2) bhi

/-- `sum(size for block in get_matching_blocks())` over the full strings. -/
def smM (a b : PyStr) : Nat :=
  matchSum a b (a.length + b.length + 1) 0 a.length 0 b.length

/-- `SequenceMatcher.ratio()` as an exact fraction `(numerator, denominator)`:
`2*M/T`, and `1` when both strings are empty (`_calculate_ratio`). -/
def smPair (a b : PyStr) : Nat × Nat :=
  if a.length + b.length = 0 then (1, 1) else (2 * smM a b, a.length + b.length)

/-- Exact comparison `p > q` of two such fractions (both denominators are
positive). -/
def pairGT (p q : Nat × Nat) : Bool :=
  q.1 * p.2 < p.1 * q.2

/-! ### The command table and `command_parser` -/

/-- The thirteen handlers registered in `COMMANDS` (lines 413-427). -/
inductive HandlerTag where
  | show_list | delete_phone | days_to_birthday | add_birthday | add_phone
  | hello | show_all | change | phone | helper | delete_contact | search
  | add_email
  deriving DecidableEq, Repr

/-- The `COMMANDS` dict (lines 413-427) in its insertion order. -/
def COMMANDS : List (HandlerTag × PyStr) :=
  [(.show_list, "show list".toList),
   (.delete_phone, "delete phone".toList),
   (.days_to_birthday, "when birthday".toList),
   (.add_birthday, "add birthday".toList),
   (.add_phone, "add contact".toList),
   (.hello, "hello".toList),
   (.show_all, "show all".toList),
   (.change, "change".toList),
   (.phone, "show".toList),
   (.helper, "help".toList),
   (.delete_contact, "delete contact".toList),
   (.search, "search".toList),
   (.add_email, "add email".toList)]

/-- The loop of `command_parser` (lines 430-442).  State: the best ratio seen
(`ratio`, initially `0`, kept as an exact fraction) and `possible_command`
(initially `""`).  The second component of the result models the keyword
printed in the `"Maybe you meant ..."` fallback message (`none` when a prefix
matched and nothing is printed). -/
def parserLoop (input : PyStr) :
    List (HandlerTag × PyStr) → Nat × Nat → PyStr →
      Option (HandlerTag × List PyStr) × Option PyStr
  | [], _, poss => (none, some poss)
  | e :: rest, best, poss =>
    if pyStartsWith input e.2 then
      (some (e.1, pySplitSp (pyStrip (pyReplace e.2 [] input))), none)
    else
      let p := smPair input e.2
      if pairGT p best then parserLoop input rest p e.2
      else parserLoop input rest best poss

/-- `command_parser` (lines 430-442). -/
def commandParser (input : PyStr) : Option (HandlerTag × List PyStr) × Option PyStr :=
  parserLoop input COMMANDS (0, 1) []

/-! ### Handlers and the error decorator -/

/-- Ambient data a handler can consume: `datetime.now().date()` and the
pending `input()` replies. -/
structure Ctx where
  today : PyDate
  inputs : List PyStr

/-- A command handler: argument list and store in, message and store out, or a
Python exception. -/
abbrev Handler := List PyStr → Ctx → Book → Except PyErr (PyStr × Book)

/-- `args[i]`, raising `IndexError` past the end. -/
def getArg (args : List PyStr) (i : Nat) : Except PyErr PyStr :=
  match args.get? i with
  | some v => .ok v
  | none => .error .indexError

/-- `error_handler` (lines 8-21).  A bare `ValueError` (empty `args`) makes
`exception.args[0]` itself raise `IndexError` inside the `except` clause,
which propagates; the caught state is the store as the wrapper returns it. -/
def error_handler (f : Handler) : Handler := fun args ctx book =>
  match f args ctx book with
  | .ok r => .ok r
  | .error .indexError => .ok ("You didn\x27t provide contact name or phone number".toList, book)
  | .error (.valueError m) => .ok (m, book)
  | .error .valueErrorBare => .error .indexError
  | .error .keyError => .ok ("User is not in contact list".toList, book)
  | .error .typeError => .ok ("You didn\x27t provide enough parameters".toList, book)
  | .error .eofError => .error .eofError

/-- The `while True` reply loop inside `add_phone` (lines 280-294): returns
the (possibly renamed) target name, the record to extend, and the store;
exhausting the reply stream models `input()` raising `EOFError`. -/
def resolveExisting (book : Book) (name : PyStr) (rec : Option RecordS) :
    List PyStr → Except PyErr (PyStr × Option RecordS × Book)
  | [] => .error .eofError
  | inp :: rest =>
    if inp = "2".toList then
      let n' := name ++ "(1)".toList
      .ok (n', dGet book n', book)
    else if inp = "1".toList then
      let b' := match rec with
        | some r => remove_record book r
        | none => book
      .ok (name, dGet b' name, b')
    else if inp = "3".toList then
      .ok (name, rec, book)
    else
      resolveExisting book name rec rest

def addedContactMsg (name ph : PyStr) : PyStr :=
  "You just added contact \x22".toList ++ name ++ "\x22 with phone \x22".toList ++ ph
    ++ "\x22 to your list of contacts".toList

/-- Body of `add_phone` (lines 272-303), before decoration. -/
def add_phone_body : Handler := fun args ctx book => do
  let a0 ← getArg args 0
  let a1 ← getArg args 1
  let ph ← Phone a1
  let st ←
    if dHas book a0 then resolveExisting book a0 (dGet book a0) ctx.inputs
    else .ok (a0, dGet book a0, book)
  if ¬ pyIsNumeric ph then
    .error .valueErrorBare
  else
    match st.2.1 with
    | some r => .ok (addedContactMsg st.1 ph, dSet st.2.2 st.1 (r.add_phone ph).2)
    | none => .ok (addedContactMsg st.1 ph, add_record st.2.2 ⟨st.1, [ph], none, none⟩)

/-- Body of `hello` (lines 306-309). -/
def hello_body : Handler := fun _ _ book =>
  .ok ("How can I help you?".toList, book)

def changeSuccessMsg (name newp : PyStr) : PyStr :=
  "You just changed number for contact \x27".toList ++ name
    ++ "\x27. New number is \x27".toList ++ newp ++ "\x27".toList

/-- Body of `change` (lines 312-323), before decoration. -/
def change_body : Handler := fun args _ book => do
  let a0 ← getArg args 0
  let a1 ← getArg args 1
  let a2 ← getArg args 2
  let oldp ← Phone a1
  let newp ← Phone a2
  if ¬ pyIsNumeric newp then
    .error .valueErrorBare
  else
    .ok (changeSuccessMsg a0 newp, change_record book a0 oldp newp)

/-- Body of `phone` (lines 326-329). -/
def phone_body : Handler := fun args _ book => do
  let a0 ← getArg args 0
  let s ← show_one_record book a0
  .ok (s, book)

/-- Body of `delete_contact` (lines 337-345). -/
def delete_contact_body : Handler := fun args _ book => do
  let a0 ← getArg args 0
  if a0 ≠ [] then
    .ok (a0 ++ " was deleted from your contact list".toList, dPop book a0)
  else
    .error .indexError

/-- Body of `add_email` (lines 348-357). -/
def add_email_body : Handler := fun args _ book => do
  let a0 ← getArg args 0
  let a1 ← getArg args 1
  let e ← Email a1
  match dGet book a0 with
  | some r => .ok ("Email for ".toList ++ a0 ++ " was added".toList, dSet book a0 (r.add_email e))
  | none => .ok (a0 ++ " is not in your contact list".toList, book)

/-- Body of `add_birthday` (lines 360-369). -/
def add_birthday_body : Handler := fun args ctx book => do
  let a0 ← getArg args 0
  let a1 ← getArg args 1
  let bd ← Birthday ctx.today a1
  match dGet book a0 with
  | some r => .ok ("The birthday for ".toList ++ a0 ++ " was added".toList, dSet book a0 (r.add_birthday bd))
  | none => .ok (a0 ++ " is not in your contact list".toList, book)

/-- Body of `days_to_birthday` (lines 372-381). -/
def days_to_birthday_body : Handler := fun args ctx book => do
  let a0 ← getArg args 0
  match dGet book a0 with
  | some r =>
    if r.birthday.isSome then do
      let s ← RecordS.days_to_birthday ctx.today r
      .ok (s, book)
    else
      .ok (a0 ++ "\x27s birthday is not set".toList, book)
  | none => .ok (a0 ++ " is not in your contacts".toList, book)

/-- Body of `delete_phone` (lines 384-391). -/
def delete_phone_body : Handler := fun args _ book => do
  let a0 ← getArg args 0
  let a1 ← getArg args 1
  let ph ← Phone a1
  match dGet book a0 with
  | some r => do
    let res ← r.remove_phone ph
    .ok ("Phone ".toList ++ ph ++ " was deleted from ".toList ++ a0 ++ " ".toList,
         dSet book a0 res.2)
  | none => .ok ("Contact ".toList ++ a0 ++ " does not exist".toList, book)

/-- Body of `show_all` (lines 394-399). -/
def show_all_body : Handler := fun _ _ book =>
  if book.length > 0 then .ok (show_all_records book, book)
  else .ok ("Your addressbook is empty".toList, book)

/-- Body of `show_list` (lines 402-406). -/
def show_list_body : Handler := fun args _ book =>
  if book.length ≠ 0 then do
    let a0 ← getArg args 0
    let n ← pyInt a0
    .ok (iteratorStr book n, book)
  else
    .ok ("Your address book is empty".toList, book)

/-- `search` (lines 409-410): the one handler defined WITHOUT the
`@error_handler` decorator. -/
def search : Handler := fun args _ book => do
  let a0 ← getArg args 0
  .ok (search_in_file book a0, book)

/-- `HELP_INSTRUCTIONS` (lines 246-269), transcribed verbatim (trailing
spaces included). -/
def HELP_INSTRUCTIONS : PyStr :=
  ("This contact bot save your contacts \n    Global commands:\n      \x27add contact\x27 - add new contact. Input user name and phone\n    Example: add User_name 095-xxx-xx-xx\n      \x27add birthday\x27 - add birthday of some User. Input user name and birthday in format dd-mm-yyyy\n    Example: add User_name 1971-01-01\n      \x27add email\x27 - add email of some User.\n    Example: add email User_name example@mail.com\n      \x27change\x27 - change users old phone to new phone. Input user name, old phone and new phone\n    Example: change User_name 095-xxx-xx-xx 050-xxx-xx-xx\n      \x27delete contact\x27 - delete contact (name and phones). Input user name\n    Example: delete contact User_name\n      \x27delete phone\x27 - delete phone of some User. Input user name and phone\n    Example: delete phone User_name 099-xxx-xx-xx\n      \x27show\x27 - show contacts of input user. Input user name\n    Example: show User_name\n      \x27show all\x27 - show all contacts\n    Example: show all\n      \x27show list\x27 - show list of contacts which contains N-users\n    Example: show list 5 \n      \x27when birthday\x27 - show days to birthday of User/ Input user name\n    Example: when celebrate User_name\n      \x27exit/\x27.\x27/\x27bye\x27/\x27good bye\x27/\x27close\x27 - exit bot\n    Example: good bye").toList

/-- The decorated handler bound to each registered name (the `@error_handler`
application at each `def` site). -/
def execHandler : HandlerTag → Handler
  | .show_list => error_handler show_list_body
  | .delete_phone => error_handler delete_phone_body
  | .days_to_birthday => error_handler days_to_birthday_body
  | .add_birthday => error_handler add_birthday_body
  | .add_phone => error_handler add_phone_body
  | .hello => error_handler hello_body
  | .show_all => error_handler show_all_body
  | .change => error_handler change_body
  | .phone => error_handler phone_body
  | .helper => error_handler (fun _ _ book => .ok (HELP_INSTRUCTIONS, book))
  | .delete_contact => error_handler delete_contact_body
  | .search => search
  | .add_email => error_handler add_email_body

/-! ### The REPL loop (`main`, lines 445-476) -/

/-- `end_words` (line 457). -/
def END_WORDS : List PyStr :=
  [".".toList, "close".toList, "bye".toList, "exit".toList]

/-- What `main` does with one input line: enter the save-confirmation exit
sequence, or lowercase the line and hand it to the parser. -/
inductive Route where
  | exitSeq
  | dispatch (r : Option (HandlerTag × List PyStr) × Option PyStr)
  deriving DecidableEq

def routeInput (line : PyStr) : Route :=
  if pyLower line ∈ END_WORDS then .exitSeq
  else .dispatch (commandParser (pyLower line))

/-! ### Shared helper lemmas -/

theorem phone_ok_eq {s v : PyStr} (h : Phone s = .ok v) :
    v = s ∧ s.length = 12 ∧ pyIsNumeric s = true ∧
      pyStartsWith s ("380".toList) = true := by
  unfold Phone at h
  split_ifs at h with h1 h2 h3
  · cases h
    refine ⟨rfl, by omega, ?_, ?_⟩
    · simpa using h3
    · simpa using h2

/-! ### C3 -/

/-- C3 (amended): `Phone(s)` succeeds, with the value it was given, iff
`len(s) == 12 and s.isnumeric() and s.startswith("380")` — the code tests
`isnumeric`, not the `isdigit` of the claim; on failure no value is
produced. -/
theorem C3_phone_validity (s : PyStr) :
    (Phone s = .ok s ↔
      s.length = 12 ∧ pyIsNumeric s = true ∧ pyStartsWith s ("380".toList) = true) ∧
    (∀ v, Phone s = .ok v → v = s) := by
  constructor
  · constructor
    · intro h
      exact (phone_ok_eq h).2
    · intro ⟨h1, h2, h3⟩
      unfold Phone
      rw [if_neg (by omega), if_neg (not_not_intro h3), if_neg (not_not_intro h2)]
  · intro v h
    exact (phone_ok_eq h).1

theorem C3_phone_validity_witness :
    (("380000000000".toList.length = 12 ∧ pyIsNumeric ("380000000000".toList) = true ∧
      pyStartsWith ("380000000000".toList) ("380".toList) = true) ∧
     Phone ("380000000000".toList) = .ok ("380000000000".toList)) :=
  ⟨by decide, (C3_phone_validity ("380000000000".toList)).1.mpr (by decide)⟩

/-- C3 counterexample: `"380½½½½½½½½½"` has twelve characters, starts with
`"380"` and is `isnumeric` (the vulgar fraction has `Numeric_Type=Numeric`),
so the `Phone` constructor accepts it — yet `s.isdigit()` is false, refuting
the claimed equivalence with `isdigit`. -/
theorem C3_phone_validity_counterexample :
    Phone ("380½½½½½½½½½".toList) = .ok ("380½½½½½½½½½".toList) ∧
    pyIsDigit ("380½½½½½½½½½".toList) = false := by
  constructor
  · decide
  · decide

/-! ### C4 -/

/-- C4 (amended): `Record.change(old, new)` inspects only the first phone:
with a nonempty list whose head equals `old`, the head is removed, `new` is
appended at the END of the list and a confirmation is returned; with a
nonempty list whose head differs from `old` a "not found" message naming
`old` is returned without scanning further (even if `old` occurs later); with
an EMPTY phone list the method returns `None` — no message at all. -/
theorem C4_change_first_only (r : RecordS) (oldp newp : PyStr) :
    (r.phones = [] → RecordS.change r oldp newp = (none, r)) ∧
    (∀ p rest, r.phones = p :: rest → p = oldp →
      RecordS.change r oldp newp =
        (some (changedMsg oldp newp), { r with phones := rest ++ [newp] })) ∧
    (∀ p rest, r.phones = p :: rest → p ≠ oldp →
      RecordS.change r oldp newp = (some (notFoundInRecordMsg oldp), r)) := by
  refine ⟨?_, ?_, ?_⟩
  · intro h
    unfold RecordS.change
    rw [h]
  · intro p rest h hp
    unfold RecordS.change
    rw [h]
    simp [hp]
  · intro p rest h hp
    unfold RecordS.change
    rw [h]
    simp [hp]

def c4rec : RecordS :=
  ⟨"bob".toList, ["380000000001".toList, "380000000002".toList], none, none⟩

/-- Witness: `old` equals the second phone but not the first, and the scan
still answers "not found". -/
theorem C4_change_first_only_witness :
    (c4rec.phones = "380000000001".toList :: ["380000000002".toList] ∧
      ("380000000001".toList : PyStr) ≠ "380000000002".toList) ∧
    RecordS.change c4rec ("380000000002".toList) ("380000000003".toList) =
      (some (notFoundInRecordMsg ("380000000002".toList)), c4rec) :=
  ⟨⟨by decide, by decide⟩,
   (C4_change_first_only c4rec ("380000000002".toList) ("380000000003".toList)).2.2
     ("380000000001".toList) ["380000000002".toList] (by decide) (by decide)⟩

def c4emptyRec : RecordS := ⟨"bob".toList, [], none, none⟩

/-- C4 counterexample: with an empty phone list `Record.change` returns
`None` — no "not found" message is produced, contrary to the claim's "in
every other case". -/
theorem C4_change_first_only_counterexample :
    RecordS.change c4emptyRec ("380000000001".toList) ("380000000002".toList) =
      (none, c4emptyRec) := by
  decide

/-! ### C10 -/

/-- C10: with a name and two syntactically valid phones, the decorated
`change` handler always returns the fixed success message, for EVERY store
state — `AddressBook.change_record` discards `Record.change`'s outcome, so a
missing contact or a non-first `old` phone is never reported. -/
theorem C10_change_always_succeeds (name p1 p2 : PyStr) (rest : List PyStr)
    (ctx : Ctx) (book : Book)
    (h1 : Phone p1 = .ok p1) (h2 : Phone p2 = .ok p2) :
    execHandler .change (name :: p1 :: p2 :: rest) ctx book =
      .ok (changeSuccessMsg name p2, change_record book name p1 p2) := by
  have hnum := (phone_ok_eq h2).2.2.1
  unfold execHandler error_handler change_body
  simp [getArg, Bind.bind, Except.bind, h1, h2, hnum]

theorem C10_change_always_succeeds_witness :
    (Phone ("380000000001".toList) = .ok ("380000000001".toList) ∧
      Phone ("380000000002".toList) = .ok ("380000000002".toList)) ∧
    execHandler .change ["ann".toList, "380000000001".toList, "380000000002".toList]
        ⟨⟨2023, 1, 1⟩, []⟩ [] =
      .ok (changeSuccessMsg ("ann".toList) ("380000000002".toList),
           change_record [] ("ann".toList) ("380000000001".toList) ("380000000002".toList)) :=
  ⟨⟨by decide, by decide⟩,
   C10_change_always_succeeds ("ann".toList) ("380000000001".toList)
     ("380000000002".toList) [] ⟨⟨2023, 1, 1⟩, []⟩ [] (by decide) (by decide)⟩

/-! ### C9 -/

set_option maxRecDepth 40000 in
set_option maxHeartbeats 2000000 in
/-- C9: the program's own help text lists `'good bye'` as an exit keyword,
but `end_words` omits it: `"good bye"` is NOT routed to the save-confirmation
exit sequence (it falls through to the dispatcher), while `"."`, `"close"`,
`"bye"` and `"exit"` are, case-insensitively. -/
theorem C9_good_bye_not_terminating :
    routeInput ("good bye".toList) ≠ Route.exitSeq ∧
    pyIn ("\x27good bye\x27".toList) HELP_INSTRUCTIONS = true ∧
    routeInput (".".toList) = Route.exitSeq ∧
    routeInput ("close".toList) = Route.exitSeq ∧
    routeInput ("BYE".toList) = Route.exitSeq ∧
    routeInput ("Exit".toList) = Route.exitSeq := by
  refine ⟨?_, ?_, ?_, ?_, ?_, ?_⟩
  · intro hcon
    unfold routeInput at hcon
    rw [if_neg (by decide)] at hcon
    exact Route.noConfusion hcon
  · unfold pyIn
    rw [List.any_eq_true]
    exact ⟨1157, List.mem_range.mpr (by decide), by decide⟩
  · unfold routeInput
    rw [if_pos (by decide)]
  · unfold routeInput
    rw [if_pos (by decide)]
  · unfold routeInput
    rw [if_pos (by decide)]
  · unfold routeInput
    rw [if_pos (by decide)]

/-! ### C6 -/

/-- Specification-side contribution of one record to a search: its line once
when the lowercased query occurs in the lowercased identity, otherwise its
line once per phone whose raw text contains the lowercased query. -/
def searchContribution (data : PyStr) (r : RecordS) : PyStr :=
  if pyIn (pyLower data) (pyLower r.name) then searchLine r
  else ((r.phones.filter (fun ph => pyIn (pyLower data) ph)).map
          (fun _ => searchLine r)).flatten

/-- Specification-side search result: concatenation of all contributions. -/
def searchSpec (b : Book) (data : PyStr) : PyStr :=
  (b.map (fun e => searchContribution data e.2)).flatten

theorem search_inner_fold (data : PyStr) (r : RecordS) (phones : List PyStr) :
    ∀ acc : PyStr,
      phones.foldl
        (fun res2 ph => if pyIn (pyLower data) ph then res2 ++ searchLine r else res2)
        acc
      = acc ++ ((phones.filter (fun ph => pyIn (pyLower data) ph)).map
                  (fun _ => searchLine r)).flatten := by
  induction phones with
  | nil => intro acc; simp
  | cons p ps ih =>
    intro acc
    simp only [List.foldl_cons, List.filter_cons]
    by_cases h : pyIn (pyLower data) p = true
    · rw [if_pos h, ih, h]
      simp
    · rw [if_neg (by simp [h]), ih]
      simp [h]

theorem search_outer_fold (data : PyStr) (b : Book) :
    ∀ acc : PyStr,
      b.foldl
        (fun res e =>
          if pyIn (pyLower data) (pyLower e.2.name) then res ++ searchLine e.2
          else
            e.2.phones.foldl
              (fun res2 ph => if pyIn (pyLower data) ph then res2 ++ searchLine e.2 else res2)
              res)
        acc
      = acc ++ searchSpec b data := by
  induction b with
  | nil => intro acc; simp [searchSpec]
  | cons e es ih =>
    intro acc
    simp only [List.foldl_cons]
    by_cases h : pyIn (pyLower data) (pyLower e.2.name) = true
    · rw [if_pos h, ih]
      simp [searchSpec, searchContribution, h]
    · rw [if_neg (by simp [h]), search_inner_fold, ih]
      simp [searchSpec, searchContribution, h]

/-- C6 (amended): `search` returns, in store order, the newline-terminated
line of every matching record — ONCE when the (lowercased) query occurs in
the lowercased identity, and otherwise once PER phone whose text contains the
lowercased query (the inner loop has no `break`, so a record with several
matching phones is listed several times); the result is the empty string when
nothing matches. -/
theorem C6_search_result (b : Book) (data : PyStr) :
    search_in_file b data = searchSpec b data := by
  unfold search_in_file
  rw [search_outer_fold]
  simp

def c6rec : RecordS :=
  ⟨"bob".toList, ["380111111111".toList, "380111111119".toList], none, none⟩

def c6book : Book := [("bob".toList, c6rec)]

/-- C6 counterexample: a record with two phones both containing `"3801"` has
its description emitted twice, refuting "each matching record's description
appearing exactly once". -/
theorem C6_search_result_counterexample :
    search_in_file c6book ("3801".toList) = searchLine c6rec ++ searchLine c6rec ∧
    searchLine c6rec ≠ [] := by
  constructor
  · decide
  · decide

/-! ### C1 -/

theorem parserLoop_prefix (input : PyStr) :
    ∀ (l : List (HandlerTag × PyStr)) (best : Nat × Nat) (poss : PyStr)
      (e : HandlerTag × PyStr),
      List.find? (fun en => pyStartsWith input en.2) l = some e →
      parserLoop input l best poss =
        (some (e.1, pySplitSp (pyStrip (pyReplace e.2 [] input))), none) := by
  intro l
  induction l with
  | nil =>
    intro best poss e h
    simp at h
  | cons hd tl ih =>
    intro best poss e h
    by_cases hp : pyStartsWith input hd.2 = true
    · rw [List.find?_cons, hp] at h
      have h' : hd = e := Option.some.inj h
      subst h'
      simp only [parserLoop]
      rw [if_pos hp]
    · rw [Bool.not_eq_true] at hp
      rw [List.find?_cons, hp] at h
      have h' : List.find? (fun en => pyStartsWith input en.2) tl = some e := h
      simp only [parserLoop]
      rw [if_neg (by simp [hp])]
      by_cases hgt : pairGT (smPair input hd.2) best = true
      · rw [if_pos hgt]
        exact ih _ _ e h'
      · rw [if_neg hgt]
        exact ih _ _ e h' 

/-- C1 (amended): when some registered keyword is a prefix of the input, the
parser returns the handler of the FIRST such keyword in table order, and the
argument list obtained by removing EVERY occurrence of that keyword from the
input (`str.replace(key_word, "")`, not just the leading one), trimming
whitespace, and splitting on single spaces; nothing is printed. -/
theorem C1_prefix_dispatch (input : PyStr) (e : HandlerTag × PyStr)
    (h : List.find? (fun en => pyStartsWith input en.2) COMMANDS = some e) :
    commandParser input =
      (some (e.1, pySplitSp (pyStrip (pyReplace e.2 [] input))), none) :=
  parserLoop_prefix input COMMANDS (0, 1) [] e h

theorem C1_prefix_dispatch_witness :
    (List.find? (fun en => pyStartsWith ("hello there".toList) en.2) COMMANDS =
      some (HandlerTag.hello, "hello".toList)) ∧
    commandParser ("hello there".toList) =
      (some (HandlerTag.hello, ["there".toList]), none) :=
  ⟨by decide,
   Eq.trans
     (C1_prefix_dispatch ("hello there".toList) (HandlerTag.hello, "hello".toList)
       (by decide))
     (by decide)⟩

/-- C1 counterexample: keyword `"show"` matches input `"show showman"`, and
`replace` removes BOTH occurrences of `"show"`, yielding args `["man"]`,
whereas stripping only the leading prefix would yield `["showman"]`. -/
theorem C1_prefix_dispatch_counterexample :
    commandParser ("show showman".toList) =
      (some (HandlerTag.phone, ["man".toList]), none) ∧
    pySplitSp (pyStrip (List.drop 4 ("show showman".toList))) = ["showman".toList] ∧
    (["man".toList] : List PyStr) ≠ ["showman".toList] := by
  refine ⟨by decide, by decide, by decide⟩

/-! ### C2 -/

/-- `SequenceMatcher.ratio()` as an exact rational (specification side). -/
def ratQ (a b : PyStr) : ℚ :=
  if a.length + b.length = 0 then 1
  else (2 * smM a b : ℚ) / ((a.length + b.length : Nat) : ℚ)

/-- Value of the loop's `(numerator, denominator)` ratio state. -/
def bQ (p : Nat × Nat) : ℚ := (p.1 : ℚ) / (p.2 : ℚ)

theorem smPair_pos (a b : PyStr) : 0 < (smPair a b).2 := by
  unfold smPair
  split_ifs with h
  · norm_num
  · simp only []
    omega

theorem bQ_smPair (a b : PyStr) : bQ (smPair a b) = ratQ a b := by
  unfold bQ smPair ratQ
  split_ifs with h
  · norm_num
  · push_cast
    ring

theorem bQ_nonneg (p : Nat × Nat) : 0 ≤ bQ p := by
  unfold bQ
  positivity

theorem pairGT_iff (p q : Nat × Nat) (hp : 0 < p.2) (hq : 0 < q.2) :
    pairGT p q = true ↔ bQ q < bQ p := by
  unfold pairGT bQ
  rw [decide_eq_true_eq,
    div_lt_div_iff₀ (by exact_mod_cast hq) (by exact_mod_cast hp)]
  exact_mod_cast Iff.rfl

/-- Maximum `SequenceMatcher` ratio of `input` against the keywords of a
table (`0` for the empty table, matching the loop's initial `ratio = 0`). -/
def maxQ (input : PyStr) : List (HandlerTag × PyStr) → ℚ
  | [] => 0
  | e :: rest => max (ratQ input e.2) (maxQ input rest)

/-- The earliest keyword attaining the maximal ratio. -/
def firstMaxKw (input : PyStr) (l : List (HandlerTag × PyStr)) : PyStr :=
  match List.find? (fun e => ratQ input e.2 = maxQ input l) l with
  | some e => e.2
  | none => []

/-- What the fallback actually suggests: the earliest keyword of maximal
ratio when that maximum is positive, and the initial `""` otherwise. -/
def bestSuggestion (input : PyStr) : PyStr :=
  if 0 < maxQ input COMMANDS then firstMaxKw input COMMANDS else []

theorem maxQ_cons (input : PyStr) (hd : HandlerTag × PyStr)
    (tl : List (HandlerTag × PyStr)) :
    maxQ input (hd :: tl) = max (ratQ input hd.2) (maxQ input tl) := rfl

theorem firstMaxKw_cons_of_max (input : PyStr) (hd : HandlerTag × PyStr)
    (tl : List (HandlerTag × PyStr)) (h : maxQ input tl ≤ ratQ input hd.2) :
    firstMaxKw input (hd :: tl) = hd.2 := by
  unfold firstMaxKw
  have hm : maxQ input (hd :: tl) = ratQ input hd.2 := max_eq_left h
  rw [hm]
  simp [List.find?_cons]

theorem firstMaxKw_cons_of_lt (input : PyStr) (hd : HandlerTag × PyStr)
    (tl : List (HandlerTag × PyStr)) (h : ratQ input hd.2 < maxQ input tl) :
    firstMaxKw input (hd :: tl) = firstMaxKw input tl := by
  unfold firstMaxKw
  have hm : maxQ input (hd :: tl) = maxQ input tl := max_eq_right (le_of_lt h)
  rw [hm]
  simp only [List.find?_cons]
  rw [show decide (ratQ input hd.2 = maxQ input tl) = false from
    decide_eq_false (ne_of_lt h)]

theorem parserLoop_fallback (input : PyStr) :
    ∀ (l : List (HandlerTag × PyStr)) (best : Nat × Nat) (poss : PyStr),
      0 < best.2 →
      (∀ e ∈ l, pyStartsWith input e.2 = false) →
      parserLoop input l best poss =
        (none, some (if bQ best < maxQ input l then firstMaxKw input l else poss)) := by
  intro l
  induction l with
  | nil =>
    intro best poss hb hnp
    simp only [parserLoop, maxQ]
    rw [if_neg (not_lt.mpr (bQ_nonneg best))]
  | cons hd tl ih =>
    intro best poss hb hnp
    have hpe : pyStartsWith input hd.2 = false := hnp hd (List.mem_cons_self hd tl)
    have hnp' : ∀ e ∈ tl, pyStartsWith input e.2 = false :=
      fun e he => hnp e (List.mem_cons_of_mem hd he)
    simp only [parserLoop]
    rw [if_neg (by simp [hpe])]
    by_cases hgt : pairGT (smPair input hd.2) best = true
    · rw [if_pos hgt, ih (smPair input hd.2) hd.2 (smPair_pos input hd.2) hnp']
      have hlt : bQ best < ratQ input hd.2 := by
        have h2 := (pairGT_iff (smPair input hd.2) best (smPair_pos input hd.2) hb).mp hgt
        rwa [bQ_smPair] at h2
      simp only [Prod.mk.injEq, Option.some.injEq, true_and]
      rw [bQ_smPair]
      by_cases hc : ratQ input hd.2 < maxQ input tl
      · rw [if_pos hc,
          if_pos (show bQ best < maxQ input (hd :: tl) by
            rw [maxQ_cons]
            exact lt_max_of_lt_right (lt_trans hlt hc)),
          firstMaxKw_cons_of_lt input hd tl hc]
      · rw [if_neg hc,
          if_pos (by rw [maxQ_cons]; exact lt_max_of_lt_left hlt),
          firstMaxKw_cons_of_max input hd tl (not_lt.mp hc)]
    · rw [if_neg hgt, ih best poss hb hnp']
      have hle : ratQ input hd.2 ≤ bQ best := by
        have h2 := pairGT_iff (smPair input hd.2) best (smPair_pos input hd.2) hb
        rw [bQ_smPair] at h2
        exact not_lt.mp (fun hlt => hgt (h2.mpr hlt))
      simp only [Prod.mk.injEq, Option.some.injEq, true_and]
      by_cases hc : bQ best < maxQ input tl
      · rw [if_pos hc,
          if_pos (by rw [maxQ_cons]; exact lt_max_of_lt_right hc),
          firstMaxKw_cons_of_lt input hd tl (lt_of_le_of_lt hle hc)]
      · rw [if_neg hc, if_neg (by
          rw [maxQ_cons]
          intro hcon
          rcases lt_max_iff.mp hcon with h1 | h2
          · exact absurd h1 (not_lt.mpr hle)
          · exact hc h2)]

/-- C2 (amended): when no registered keyword prefixes the input, the parser
returns a null handler and prints the registered keyword whose
`SequenceMatcher` ratio against the full input is highest (ties keeping the
earliest keyword in table order) — PROVIDED that maximum is positive; when
every ratio is 0 the suggestion stays the loop's initial empty string, which
is not a registered keyword.  The result is a pure function of the input and
the table, hence identical on every run. -/
theorem C2_fallback_suggestion (input : PyStr)
    (h : ∀ e ∈ COMMANDS, pyStartsWith input e.2 = false) :
    commandParser input = (none, some (bestSuggestion input)) := by
  unfold commandParser bestSuggestion
  rw [parserLoop_fallback input COMMANDS (0, 1) [] (by norm_num) h]
  have hb : bQ (0, 1) = 0 := by
    unfold bQ
    norm_num
  rw [hb]

theorem C2_fallback_suggestion_witness :
    (∀ e ∈ COMMANDS, pyStartsWith ("ad contct".toList) e.2 = false) ∧
    commandParser ("ad contct".toList) =
      (none, some (bestSuggestion ("ad contct".toList))) :=
  ⟨by decide, C2_fallback_suggestion ("ad contct".toList) (by decide)⟩

/-- C2 counterexample: `"q"` shares no character with any keyword, every
ratio is `0`, no update ever fires, and the emitted suggestion is `""` —
which is not a registered keyword, refuting "suggests the registered keyword
whose ratio ... is highest". -/
theorem C2_fallback_suggestion_counterexample :
    commandParser ("q".toList) = (none, some []) ∧
    ([] : PyStr) ∉ COMMANDS.map Prod.snd := by
  refine ⟨by decide, by decide⟩

/-! ### C7 -/

theorem isDigitCh_bounds {c : Char} (h : isDigitCh c = true) :
    48 ≤ c.toNat ∧ c.toNat ≤ 57 := by
  simpa [isDigitCh] using h

theorem digitChar_reconstruct (c : Char) (h1 : 48 ≤ c.toNat) (h2 : c.toNat ≤ 57) :
    Nat.digitChar (c.toNat - 48) = c := by
  have h3 := Char.ofNat_toNat c
  interval_cases hc : c.toNat <;> (rw [← h3]; decide)

theorem digit_ne_dash {c : Char} (h : isDigitCh c = true) : ¬ c = '-' := by
  intro hc
  subst hc
  exact absurd h (by decide)

theorem toNat_ne_48 {c : Char} (h : ¬ c = '0') : c.toNat ≠ 48 := by
  intro hc
  exact h (by rw [← Char.ofNat_toNat c, hc])

theorem natToStrAux_small (fuel n : Nat) (h : n < 10) :
    natToStrAux fuel n = [Nat.digitChar n] := by
  cases fuel with
  | zero => simp only [natToStrAux, Nat.mod_eq_of_lt h]
  | succ f => simp only [natToStrAux, if_pos h]

theorem natToStrAux_step (fuel n : Nat) (h : 10 ≤ n) :
    natToStrAux (fuel + 1) n = natToStrAux fuel (n / 10) ++ [Nat.digitChar (n % 10)] := by
  conv_lhs => unfold natToStrAux
  rw [if_neg (by omega)]

theorem natToStr_small {n : Nat} (h : n < 10) : natToStr n = [Nat.digitChar n] :=
  natToStrAux_small n n h

theorem natToStrAux_eq : ∀ (n fuel : Nat), n ≤ fuel → natToStrAux fuel n = natToStr n := by
  intro n
  induction n using Nat.strong_induction_on with
  | _ n ih =>
    intro fuel hf
    by_cases h : n < 10
    · rw [natToStrAux_small fuel n h, natToStr_small h]
    · obtain ⟨f, hfeq⟩ : ∃ f, fuel = f + 1 := ⟨fuel - 1, by omega⟩
      obtain ⟨g, hgeq⟩ : ∃ g, n = g + 1 := ⟨n - 1, by omega⟩
      subst hfeq
      rw [natToStrAux_step f n (by omega), ih (n / 10) (by omega) f (by omega)]
      conv_rhs => unfold natToStr
      rw [hgeq, natToStrAux_step g (g + 1) (by omega),
        ih ((g + 1) / 10) (by omega) g (by omega)]

theorem natToStr_step {n : Nat} (h : 10 ≤ n) :
    natToStr n = natToStr (n / 10) ++ [Nat.digitChar (n % 10)] := by
  conv_lhs => unfold natToStr
  obtain ⟨g, hg⟩ : ∃ g, n = g + 1 := ⟨n - 1, by omega⟩
  rw [hg, natToStrAux_step g (g + 1) (by omega),
    natToStrAux_eq ((g + 1) / 10) g (by omega)]

theorem pad2_two {n : Nat} (h : n < 100) :
    pad2 n = [Nat.digitChar (n / 10), Nat.digitChar (n % 10)] := by
  unfold pad2
  split_ifs with h10
  · rw [natToStr_small h10, Nat.div_eq_of_lt h10, Nat.mod_eq_of_lt h10]
    rfl
  · rw [natToStr_step (by omega), natToStr_small (by omega)]
    rfl

theorem natToStr_four {n : Nat} (h1 : 1000 ≤ n) (h2 : n < 10000) :
    natToStr n = [Nat.digitChar (n / 1000), Nat.digitChar (n / 100 % 10),
      Nat.digitChar (n / 10 % 10), Nat.digitChar (n % 10)] := by
  rw [natToStr_step (by omega), natToStr_step (by omega), natToStr_step (by omega),
    natToStr_small (by omega), Nat.div_div_eq_div_mul, Nat.div_div_eq_div_mul,
    Nat.div_div_eq_div_mul]
  norm_num

theorem parseNatDigits_two (a b : Char) :
    parseNatDigits [a, b] = 10 * (a.toNat - 48) + (b.toNat - 48) := by
  simp [parseNatDigits]

theorem parseNatDigits_four (a b c d : Char) :
    parseNatDigits [a, b, c, d] =
      1000 * (a.toNat - 48) + 100 * (b.toNat - 48) + 10 * (c.toNat - 48) + (d.toNat - 48) := by
  simp [parseNatDigits]
  ring

theorem daysInMonth_le (y m : Nat) : daysInMonth y m ≤ 31 := by
  unfold daysInMonth
  split <;> first | omega | (split_ifs <;> omega)

/-- C7 (amended): for strings in strict `DD-MM-YYYY` shape — two-digit day,
two-digit month, four-digit year whose first digit is not `'0'` — denoting a
real calendar date not after `today`, the `Birthday` field parses the string
and `strftime("%d-%m-%Y")` renders the stored date back to exactly the
original text.  (For four-digit year fields with a leading zero the glibc
`%Y` used on Linux drops the padding, breaking the round trip — see the
counterexample.) -/
theorem C7_birthday_roundtrip
    (d1 d2 m1 m2 y1 y2 y3 y4 : Char) (yv mv dv : Nat) (today : PyDate)
    (hd1 : isDigitCh d1 = true) (hd2 : isDigitCh d2 = true)
    (hm1 : isDigitCh m1 = true) (hm2 : isDigitCh m2 = true)
    (hy1 : isDigitCh y1 = true) (hy2 : isDigitCh y2 = true)
    (hy3 : isDigitCh y3 = true) (hy4 : isDigitCh y4 = true)
    (hy0 : ¬ y1 = '0')
    (hyv : yv = 1000 * (y1.toNat - 48) + 100 * (y2.toNat - 48) +
      10 * (y3.toNat - 48) + (y4.toNat - 48))
    (hmv : mv = 10 * (m1.toNat - 48) + (m2.toNat - 48))
    (hdv : dv = 10 * (d1.toNat - 48) + (d2.toNat - 48))
    (hvalid : validDate ⟨yv, mv, dv⟩)
    (hnf : dateGT ⟨yv, mv, dv⟩ today = false) :
    Birthday today [d1, d2, '-', m1, m2, '-', y1, y2, y3, y4] = .ok ⟨yv, mv, dv⟩ ∧
    pyStrftimeDMY ⟨yv, mv, dv⟩ = [d1, d2, '-', m1, m2, '-', y1, y2, y3, y4] := by
  obtain ⟨hbd1, hbd1r⟩ := isDigitCh_bounds hd1
  obtain ⟨hbd2, hbd2r⟩ := isDigitCh_bounds hd2
  obtain ⟨hbm1, hbm1r⟩ := isDigitCh_bounds hm1
  obtain ⟨hbm2, hbm2r⟩ := isDigitCh_bounds hm2
  obtain ⟨hby1, hby1r⟩ := isDigitCh_bounds hy1
  obtain ⟨hby2, hby2r⟩ := isDigitCh_bounds hy2
  obtain ⟨hby3, hby3r⟩ := isDigitCh_bounds hy3
  obtain ⟨hby4, hby4r⟩ := isDigitCh_bounds hy4
  have hvd := hvalid
  unfold validDate at hvd
  obtain ⟨hv1, hv2, hv3, hv4, hv5, hv6⟩ := hvd
  have hv1' : 1 ≤ yv := hv1
  have hv2' : yv ≤ 9999 := hv2
  have hv3' : 1 ≤ mv := hv3
  have hv4' : mv ≤ 12 := hv4
  have hv5' : 1 ≤ dv := hv5
  have hv6' : dv ≤ daysInMonth yv mv := hv6
  have hdm : daysInMonth yv mv ≤ 31 := daysInMonth_le yv mv
  have hsplit : pySplitChar '-' [d1, d2, '-', m1, m2, '-', y1, y2, y3, y4] =
      [[d1, d2], [m1, m2], [y1, y2, y3, y4]] := by
    simp [pySplitChar, digit_ne_dash hd1, digit_ne_dash hd2, digit_ne_dash hm1,
      digit_ne_dash hm2, digit_ne_dash hy1, digit_ne_dash hy2, digit_ne_dash hy3,
      digit_ne_dash hy4]
  have hpd : parseNatDigits [d1, d2] = dv := by
    rw [parseNatDigits_two, hdv]
  have hpm : parseNatDigits [m1, m2] = mv := by
    rw [parseNatDigits_two, hmv]
  have hpy : parseNatDigits [y1, y2, y3, y4] = yv := by
    rw [parseNatDigits_four, hyv]
  have hday : dayTok [d1, d2] = true := by
    unfold dayTok
    rw [hpd]
    simp only [List.all_cons, List.all_nil, hd1, hd2, Bool.and_true, Bool.true_and,
      List.length_cons, List.length_nil]
    simp only [Bool.and_eq_true, Bool.or_eq_true, beq_iff_eq, decide_eq_true_eq]
    refine ⟨⟨Or.inr trivial, ?_⟩, ?_⟩ <;> omega
  have hmon : monTok [m1, m2] = true := by
    unfold monTok
    rw [hpm]
    simp only [List.all_cons, List.all_nil, hm1, hm2, Bool.and_true, Bool.true_and,
      List.length_cons, List.length_nil]
    simp only [Bool.and_eq_true, Bool.or_eq_true, beq_iff_eq, decide_eq_true_eq]
    refine ⟨⟨Or.inr trivial, ?_⟩, ?_⟩ <;> omega
  have hyear : yearTok [y1, y2, y3, y4] = true := by
    unfold yearTok
    simp [hy1, hy2, hy3, hy4]
  have hparse : pyStrptimeDMY [d1, d2, '-', m1, m2, '-', y1, y2, y3, y4] =
      some ⟨yv, mv, dv⟩ := by
    unfold pyStrptimeDMY
    rw [hsplit]
    show (if dayTok [d1, d2] ∧ monTok [m1, m2] ∧ yearTok [y1, y2, y3, y4] then
        if validDate (⟨parseNatDigits [y1, y2, y3, y4], parseNatDigits [m1, m2],
            parseNatDigits [d1, d2]⟩ : PyDate) then
          some (⟨parseNatDigits [y1, y2, y3, y4], parseNatDigits [m1, m2],
            parseNatDigits [d1, d2]⟩ : PyDate)
        else none
      else none) = some (⟨yv, mv, dv⟩ : PyDate)
    rw [if_pos ⟨hday, hmon, hyear⟩, hpd, hpm, hpy, if_pos hvalid]
  constructor
  · unfold Birthday
    rw [hparse]
    show (if dateGT (⟨yv, mv, dv⟩ : PyDate) today then
        Except.error (PyErr.valueError ("Birthday can\x27t be bigger than current date.".toList))
      else Except.ok (⟨yv, mv, dv⟩ : PyDate)) = Except.ok (⟨yv, mv, dv⟩ : PyDate)
    rw [if_neg (by simp [hnf])]
  · unfold pyStrftimeDMY
    have h100d : dv < 100 := by omega
    have h100m : mv < 100 := by omega
    have hy1000 : 1000 ≤ yv := by
      have h48 := toNat_ne_48 hy0
      omega
    have hy10000 : yv < 10000 := by omega
    rw [pad2_two h100d, pad2_two h100m, natToStr_four hy1000 hy10000]
    have e1 : dv / 10 = d1.toNat - 48 := by omega
    have e2 : dv % 10 = d2.toNat - 48 := by omega
    have e3 : mv / 10 = m1.toNat - 48 := by omega
    have e4 : mv % 10 = m2.toNat - 48 := by omega
    have e5 : yv / 1000 = y1.toNat - 48 := by omega
    have e6 : yv / 100 % 10 = y2.toNat - 48 := by omega
    have e7 : yv / 10 % 10 = y3.toNat - 48 := by omega
    have e8 : yv % 10 = y4.toNat - 48 := by omega
    rw [e1, e2, e3, e4, e5, e6, e7, e8,
      digitChar_reconstruct d1 hbd1 hbd1r, digitChar_reconstruct d2 hbd2 hbd2r,
      digitChar_reconstruct m1 hbm1 hbm1r, digitChar_reconstruct m2 hbm2 hbm2r,
      digitChar_reconstruct y1 hby1 hby1r, digitChar_reconstruct y2 hby2 hby2r,
      digitChar_reconstruct y3 hby3 hby3r, digitChar_reconstruct y4 hby4 hby4r]
    rfl

theorem C7_birthday_roundtrip_witness :
    ((isDigitCh '0' = true ∧ isDigitCh '5' = true ∧ isDigitCh '3' = true ∧
        isDigitCh '1' = true ∧ isDigitCh '9' = true) ∧
      ¬ ('1' : Char) = '0' ∧ validDate ⟨1999, 3, 5⟩ ∧
      dateGT ⟨1999, 3, 5⟩ ⟨2023, 5, 1⟩ = false) ∧
    (Birthday ⟨2023, 5, 1⟩ ("05-03-1999".toList) = .ok ⟨1999, 3, 5⟩ ∧
      pyStrftimeDMY ⟨1999, 3, 5⟩ = "05-03-1999".toList) :=
  ⟨by decide,
   C7_birthday_roundtrip '0' '5' '0' '3' '1' '9' '9' '9' 1999 3 5 ⟨2023, 5, 1⟩
     (by decide) (by decide) (by decide) (by decide) (by decide) (by decide)
     (by decide) (by decide) (by decide) (by decide) (by decide) (by decide)
     (by decide) (by decide)⟩

/-- C7 counterexample: `"01-01-0999"` is a well-formed `DD-MM-YYYY` string
denoting 1 January 999 (not after today), `Birthday` accepts it, but glibc's
`%Y` renders the year without zero padding, so the round trip returns
`"01-01-999" ≠ "01-01-0999"`. -/
theorem C7_birthday_roundtrip_counterexample :
    Birthday ⟨2023, 5, 1⟩ ("01-01-0999".toList) = .ok ⟨999, 1, 1⟩ ∧
    pyStrftimeDMY ⟨999, 1, 1⟩ = "01-01-999".toList ∧
    ¬ pyStrftimeDMY ⟨999, 1, 1⟩ = "01-01-0999".toList ∧
    dateGT ⟨999, 1, 1⟩ ⟨2023, 5, 1⟩ = false := by
  refine ⟨by decide, by decide, by decide, by decide⟩

/-! ### C8 -/

theorem dbm_add_day_le (y m d : Nat) (hm1 : 1 ≤ m) (hm2 : m ≤ 12)
    (hd : d ≤ daysInMonth y m) :
    daysBeforeMonth y m + d ≤ 365 + (if isLeap y = true then 1 else 0) := by
  interval_cases m <;> by_cases hL : isLeap y = true <;>
    (try simp [daysInMonth, daysBeforeMonth, hL] at hd) <;>
    (try simp [daysInMonth, daysBeforeMonth, hL]) <;>
    omega

theorem isLeap_iff (y : Nat) :
    isLeap y = true ↔ (y % 4 = 0 ∧ (y % 100 ≠ 0 ∨ y % 400 = 0)) := by
  unfold isLeap
  simp [Bool.and_eq_true, Bool.or_eq_true]

set_option maxHeartbeats 1000000 in
theorem dby_succ (y : Nat) (hy : 1 ≤ y) :
    daysBeforeYear (y + 1) =
      daysBeforeYear y + 365 + (if isLeap y = true then 1 else 0) := by
  unfold daysBeforeYear
  split_ifs with h
  · rw [isLeap_iff] at h
    omega
  · rw [isLeap_iff] at h
    omega

theorem dby_mono {x z : Nat} (hx : 1 ≤ x) (h : x ≤ z) :
    daysBeforeYear x ≤ daysBeforeYear z := by
  induction z, h using Nat.le_induction with
  | base => exact le_refl _
  | succ w hw ih =>
    rw [dby_succ w (by omega)]
    omega

theorem toOrdinal_year_lt {a b : PyDate} (ha : validDate a) (hb : validDate b)
    (h : a.year < b.year) : toOrdinal a < toOrdinal b := by
  obtain ⟨ha1, ha2, ha3, ha4, ha5, ha6⟩ := ha
  obtain ⟨hb1, hb2, hb3, hb4, hb5, hb6⟩ := hb
  have hbound := dbm_add_day_le a.year a.month a.day ha3 ha4 ha6
  have hstep := dby_succ a.year ha1
  have hmono : daysBeforeYear (a.year + 1) ≤ daysBeforeYear b.year :=
    dby_mono (by omega) (by omega)
  unfold toOrdinal
  omega

/-- The day count the specification describes: days from `today` to this
year's occurrence of the birthday's month/day if that is still ahead,
otherwise to next year's occurrence. -/
def nextOccDays (today bd : PyDate) : Int :=
  if dateSub ⟨today.year, bd.month, bd.day⟩ today > 0 then
    dateSub ⟨today.year, bd.month, bd.day⟩ today
  else
    dateSub ⟨today.year + 1, bd.month, bd.day⟩ today

theorem day_le_other_year (ybd y m d : Nat) (hm1 : 1 ≤ m) (hm2 : m ≤ 12)
    (hd : d ≤ daysInMonth ybd m) (hno : ¬ (m = 2 ∧ d = 29)) :
    d ≤ daysInMonth y m := by
  interval_cases m <;>
    (simp only [daysInMonth] at hd ⊢) <;>
    (first
      | omega
      | (split_ifs at hd ⊢ <;> omega))

/-- C8 (amended): with no birthday set, `days_to_birthday` reports
"unknown"; with a birthday whose month/day is NOT February 29 it reports the
strictly positive day count to the next occurrence of that month/day (a
birthday falling today counts as passed and is reported for next year); for
February 29 birthdays the `date.replace(year=...)` call can raise
`ValueError`, which escapes the method — see the counterexample. -/
theorem C8_days_to_birthday (r : RecordS) (today : PyDate)
    (htoday : validDate today) (hty : today.year ≤ 9998) :
    (r.birthday = none →
      RecordS.days_to_birthday today r = .ok (bdayUnknownMsg r.name)) ∧
    (∀ bd, r.birthday = some bd → validDate bd → ¬ (bd.month = 2 ∧ bd.day = 29) →
      RecordS.days_to_birthday today r =
          .ok (bdayInDaysMsg r.name (nextOccDays today bd)) ∧
        0 < nextOccDays today bd) := by
  constructor
  · intro hnone
    unfold RecordS.days_to_birthday
    rw [hnone]
  · intro bd hsome hbdvalid hno29
    obtain ⟨hc1, hc2, hc3, hc4, hc5, hc6⟩ := hbdvalid
    obtain ⟨ht1, ht2, ht3, ht4, ht5, ht6⟩ := htoday
    have hb3 : 1 ≤ bd.month := hc3
    have hb4 : bd.month ≤ 12 := hc4
    have hb5 : 1 ≤ bd.day := hc5
    have hb6 : bd.day ≤ daysInMonth bd.year bd.month := hc6
    have hvthis : validDate ⟨today.year, bd.month, bd.day⟩ :=
      ⟨show 1 ≤ today.year by omega, show today.year ≤ 9999 by omega, hb3, hb4, hb5,
       day_le_other_year bd.year today.year bd.month bd.day hb3 hb4 hb6 hno29⟩
    have hvnext : validDate ⟨today.year + 1, bd.month, bd.day⟩ :=
      ⟨show 1 ≤ today.year + 1 by omega, show today.year + 1 ≤ 9999 by omega, hb3, hb4, hb5,
       day_le_other_year bd.year (today.year + 1) bd.month bd.day hb3 hb4 hb6 hno29⟩
    have hrep1 : dateReplaceYear today.year bd = .ok ⟨today.year, bd.month, bd.day⟩ := by
      unfold dateReplaceYear
      rw [if_pos hvthis]
    have hrep2 : dateReplaceYear (today.year + 1)
        (⟨today.year, bd.month, bd.day⟩ : PyDate) = .ok ⟨today.year + 1, bd.month, bd.day⟩ := by
      unfold dateReplaceYear
      rw [if_pos hvnext]
    unfold RecordS.days_to_birthday
    rw [hsome]
    simp only [Bind.bind, Except.bind, hrep1, hrep2]
    unfold nextOccDays
    by_cases hdelta : dateSub ⟨today.year, bd.month, bd.day⟩ today > 0
    · rw [if_pos hdelta, if_pos hdelta]
      exact ⟨rfl, hdelta⟩
    · rw [if_neg hdelta, if_neg hdelta]
      have hpos : 0 < dateSub ⟨today.year + 1, bd.month, bd.day⟩ today := by
        have hlt : toOrdinal today < toOrdinal ⟨today.year + 1, bd.month, bd.day⟩ :=
          toOrdinal_year_lt ⟨ht1, ht2, ht3, ht4, ht5, ht6⟩ hvnext
            (show today.year < today.year + 1 by omega)
        unfold dateSub
        omega
      exact ⟨rfl, hpos⟩

def c8rec : RecordS := ⟨"ann".toList, [], some ⟨1999, 3, 5⟩, none⟩

theorem C8_days_to_birthday_witness :
    (validDate (⟨2023, 5, 1⟩ : PyDate) ∧ (2023 : Nat) ≤ 9998 ∧
      c8rec.birthday = some ⟨1999, 3, 5⟩ ∧ validDate (⟨1999, 3, 5⟩ : PyDate) ∧
      ¬ ((1999 : Nat) = 2 ∧ (3 : Nat) = 29)) ∧
    (RecordS.days_to_birthday ⟨2023, 5, 1⟩ c8rec =
        .ok (bdayInDaysMsg c8rec.name (nextOccDays ⟨2023, 5, 1⟩ ⟨1999, 3, 5⟩)) ∧
      0 < nextOccDays ⟨2023, 5, 1⟩ ⟨1999, 3, 5⟩) :=
  ⟨by decide,
   (C8_days_to_birthday c8rec ⟨2023, 5, 1⟩ (by decide) (by decide)).2
     ⟨1999, 3, 5⟩ (by decide) (by decide) (by decide)⟩

def c8recFeb29 : RecordS := ⟨"ann".toList, [], some ⟨2020, 2, 29⟩, none⟩

/-- C8 counterexample: a February 29 birthday in a non-leap current year
makes `bd.replace(year=cur_year)` raise `ValueError`; no day count is
reported, contrary to the claim. -/
theorem C8_days_to_birthday_counterexample :
    RecordS.days_to_birthday ⟨2023, 3, 1⟩ c8recFeb29 =
      .error (.valueError ("day is out of range for month".toList)) := by
  decide

/-! ### C5 -/

/-- Does a result expose one of the four error kinds the decorator promises
to catch (`IndexError`, `ValueError`, `KeyError`, `TypeError`)? -/
def isFourKindError : Except PyErr (PyStr × Book) → Bool
  | .error .indexError => true
  | .error (.valueError _) => true
  | .error .valueErrorBare => true
  | .error .keyError => true
  | .error .typeError => true
  | _ => false

theorem bind_not_bare {α β : Type} (x : Except PyErr α) (f : α → Except PyErr β)
    (hx : x ≠ .error .valueErrorBare)
    (hf : ∀ a, x = .ok a → f a ≠ .error .valueErrorBare) :
    (x >>= f) ≠ .error .valueErrorBare := by
  rcases x with e | a
  · have hred : (Except.error e : Except PyErr α) >>= f = Except.error e := rfl
    rw [hred]
    intro hcon
    injection hcon with h
    exact hx (by rw [h])
  · have hred : (Except.ok a : Except PyErr α) >>= f = f a := rfl
    rw [hred]
    exact hf a rfl

theorem getArg_not_bare (args : List PyStr) (i : Nat) :
    getArg args i ≠ .error .valueErrorBare := by
  unfold getArg
  cases args.get? i <;> simp

theorem Phone_not_bare (s : PyStr) : Phone s ≠ .error .valueErrorBare := by
  unfold Phone
  split_ifs <;> simp

theorem pyInt_not_bare (s : PyStr) : pyInt s ≠ .error .valueErrorBare := by
  unfold pyInt
  dsimp only
  split_ifs <;> simp

theorem Email_not_bare (s : PyStr) : Email s ≠ .error .valueErrorBare := by
  unfold Email
  split_ifs <;> simp

theorem Birthday_not_bare (today : PyDate) (s : PyStr) :
    Birthday today s ≠ .error .valueErrorBare := by
  unfold Birthday
  rcases hp : pyStrptimeDMY s with _ | d
  · simp [hp]
  · simp only [hp]
    split_ifs <;> simp

theorem dateReplaceYear_not_bare (y : Nat) (d : PyDate) :
    dateReplaceYear y d ≠ .error .valueErrorBare := by
  unfold dateReplaceYear
  split_ifs <;> simp

theorem show_one_record_not_bare (b : Book) (name : PyStr) :
    show_one_record b name ≠ .error .valueErrorBare := by
  unfold show_one_record
  rcases hg : dGet b name with _ | r <;> simp [hg]

theorem remove_phone_not_bare (r : RecordS) (s : PyStr) :
    RecordS.remove_phone r s ≠ .error .valueErrorBare := by
  unfold RecordS.remove_phone
  refine bind_not_bare _ _ (Phone_not_bare s) (fun v _ => ?_)
  rcases hr : removeFirst v r.phones with _ | l <;> simp [hr]

theorem days_to_birthday_method_not_bare (today : PyDate) (r : RecordS) :
    RecordS.days_to_birthday today r ≠ .error .valueErrorBare := by
  unfold RecordS.days_to_birthday
  rcases hb : r.birthday with _ | bd
  · simp
  · refine bind_not_bare _ _ (dateReplaceYear_not_bare _ _) (fun d1 _ => ?_)
    dsimp only
    split_ifs
    · simp
    · refine bind_not_bare _ _ (dateReplaceYear_not_bare _ _) (fun d2 _ => ?_)
      simp

theorem resolveExisting_not_bare (book : Book) (name : PyStr) (rec : Option RecordS) :
    ∀ inputs, resolveExisting book name rec inputs ≠ .error .valueErrorBare := by
  intro inputs
  induction inputs with
  | nil => simp [resolveExisting]
  | cons i rest ih =>
    unfold resolveExisting
    split_ifs
    · simp
    · simp
    · simp
    · exact ih

theorem hello_body_not_bare (args : List PyStr) (ctx : Ctx) (book : Book) :
    hello_body args ctx book ≠ .error .valueErrorBare := by
  simp [hello_body]

theorem show_all_body_not_bare (args : List PyStr) (ctx : Ctx) (book : Book) :
    show_all_body args ctx book ≠ .error .valueErrorBare := by
  unfold show_all_body
  split_ifs <;> simp

theorem show_list_body_not_bare (args : List PyStr) (ctx : Ctx) (book : Book) :
    show_list_body args ctx book ≠ .error .valueErrorBare := by
  unfold show_list_body
  split_ifs
  · refine bind_not_bare _ _ (getArg_not_bare _ _) (fun a0 _ => ?_)
    refine bind_not_bare _ _ (pyInt_not_bare _) (fun n _ => ?_)
    simp
  · simp

theorem phone_body_not_bare (args : List PyStr) (ctx : Ctx) (book : Book) :
    phone_body args ctx book ≠ .error .valueErrorBare := by
  unfold phone_body
  refine bind_not_bare _ _ (getArg_not_bare _ _) (fun a0 _ => ?_)
  refine bind_not_bare _ _ (show_one_record_not_bare _ _) (fun s _ => ?_)
  simp

theorem delete_contact_body_not_bare (args : List PyStr) (ctx : Ctx) (book : Book) :
    delete_contact_body args ctx book ≠ .error .valueErrorBare := by
  unfold delete_contact_body
  refine bind_not_bare _ _ (getArg_not_bare _ _) (fun a0 _ => ?_)
  split_ifs <;> simp

theorem add_email_body_not_bare (args : List PyStr) (ctx : Ctx) (book : Book) :
    add_email_body args ctx book ≠ .error .valueErrorBare := by
  unfold add_email_body
  refine bind_not_bare _ _ (getArg_not_bare _ _) (fun a0 _ => ?_)
  refine bind_not_bare _ _ (getArg_not_bare _ _) (fun a1 _ => ?_)
  refine bind_not_bare _ _ (Email_not_bare _) (fun e _ => ?_)
  rcases hg : dGet book a0 with _ | r <;> simp [hg]

theorem add_birthday_body_not_bare (args : List PyStr) (ctx : Ctx) (book : Book) :
    add_birthday_body args ctx book ≠ .error .valueErrorBare := by
  unfold add_birthday_body
  refine bind_not_bare _ _ (getArg_not_bare _ _) (fun a0 _ => ?_)
  refine bind_not_bare _ _ (getArg_not_bare _ _) (fun a1 _ => ?_)
  refine bind_not_bare _ _ (Birthday_not_bare _ _) (fun bd _ => ?_)
  rcases hg : dGet book a0 with _ | r <;> simp [hg]

theorem days_to_birthday_body_not_bare (args : List PyStr) (ctx : Ctx) (book : Book) :
    days_to_birthday_body args ctx book ≠ .error .valueErrorBare := by
  unfold days_to_birthday_body
  refine bind_not_bare _ _ (getArg_not_bare _ _) (fun a0 _ => ?_)
  rcases hg : dGet book a0 with _ | r
  · simp [hg]
  · simp only [hg]
    split_ifs
    · refine bind_not_bare _ _ (days_to_birthday_method_not_bare _ _) (fun s _ => ?_)
      simp
    · simp

theorem delete_phone_body_not_bare (args : List PyStr) (ctx : Ctx) (book : Book) :
    delete_phone_body args ctx book ≠ .error .valueErrorBare := by
  unfold delete_phone_body
  refine bind_not_bare _ _ (getArg_not_bare _ _) (fun a0 _ => ?_)
  refine bind_not_bare _ _ (getArg_not_bare _ _) (fun a1 _ => ?_)
  refine bind_not_bare _ _ (Phone_not_bare _) (fun ph _ => ?_)
  rcases hg : dGet book a0 with _ | r
  · simp [hg]
  · simp only [hg]
    refine bind_not_bare _ _ (remove_phone_not_bare _ _) (fun res _ => ?_)
    simp

theorem change_body_not_bare (args : List PyStr) (ctx : Ctx) (book : Book) :
    change_body args ctx book ≠ .error .valueErrorBare := by
  unfold change_body
  refine bind_not_bare _ _ (getArg_not_bare _ _) (fun a0 _ => ?_)
  refine bind_not_bare _ _ (getArg_not_bare _ _) (fun a1 _ => ?_)
  refine bind_not_bare _ _ (getArg_not_bare _ _) (fun a2 _ => ?_)
  refine bind_not_bare _ _ (Phone_not_bare _) (fun oldp _ => ?_)
  refine bind_not_bare _ _ (Phone_not_bare _) (fun newp hnew => ?_)
  have hnum : pyIsNumeric newp = true := by
    obtain ⟨hv, _, hn, _⟩ := phone_ok_eq hnew
    rw [hv]
    exact hn
  rw [if_neg (by simp [hnum])]
  simp

theorem add_phone_body_not_bare (args : List PyStr) (ctx : Ctx) (book : Book) :
    add_phone_body args ctx book ≠ .error .valueErrorBare := by
  unfold add_phone_body
  refine bind_not_bare _ _ (getArg_not_bare _ _) (fun a0 _ => ?_)
  refine bind_not_bare _ _ (getArg_not_bare _ _) (fun a1 _ => ?_)
  refine bind_not_bare _ _ (Phone_not_bare _) (fun ph hph => ?_)
  have hnum : pyIsNumeric ph = true := by
    obtain ⟨hv, _, hn, _⟩ := phone_ok_eq hph
    rw [hv]
    exact hn
  dsimp only
  split_ifs
  · refine bind_not_bare _ _ (resolveExisting_not_bare book a0 (dGet book a0) ctx.inputs)
      (fun st _ => ?_)
    dsimp only
    rcases st.2.1 with _ | r <;> simp
  · refine bind_not_bare _ _ (by simp) (fun st _ => ?_)
    dsimp only
    rcases st.2.1 with _ | r <;> simp

theorem error_handler_no_escape (f : Handler) (args : List PyStr) (ctx : Ctx)
    (book : Book) (hbare : f args ctx book ≠ .error .valueErrorBare) :
    isFourKindError (error_handler f args ctx book) = false := by
  unfold error_handler
  rcases hres : f args ctx book with e | r
  · cases e <;> first | rfl | exact absurd hres hbare
  · rfl

theorem pySplitSp_ne_nil : ∀ s : PyStr, pySplitSp s ≠ [] := by
  intro s
  induction s with
  | nil => simp [pySplitSp]
  | cons c rest ih =>
    unfold pySplitSp
    split_ifs
    · simp
    · rcases h : pySplitSp rest with _ | ⟨g, gs⟩
      · exact absurd h ih
      · simp [h]

theorem parserLoop_args_ne_nil (input : PyStr) :
    ∀ (l : List (HandlerTag × PyStr)) (best : Nat × Nat) (poss : PyStr)
      (t : HandlerTag) (args : List PyStr) (s : Option PyStr),
      parserLoop input l best poss = (some (t, args), s) → args ≠ [] := by
  intro l
  induction l with
  | nil =>
    intro best poss t args s h
    simp [parserLoop] at h
  | cons hd tl ih =>
    intro best poss t args s h
    simp only [parserLoop] at h
    by_cases hp : pyStartsWith input hd.2 = true
    · rw [if_pos hp] at h
      simp only [Prod.mk.injEq, Option.some.injEq] at h
      obtain ⟨⟨ht, hargs⟩, hs⟩ := h
      rw [← hargs]
      exact pySplitSp_ne_nil _
    · rw [if_neg hp] at h
      by_cases hgt : pairGT (smPair input hd.2) best = true
      · rw [if_pos hgt] at h
        exact ih _ _ t args s h
      · rw [if_neg hgt] at h
        exact ih _ _ t args s h

/-- C5 (amended): every handler in the registered table EXCEPT `search` is
wrapped by `error_handler`, and for them none of the four caught error kinds
(`IndexError`, `ValueError`, `KeyError`, `TypeError`) can escape, for any
arguments and store; the undecorated `search` raises `IndexError` exactly on
an empty argument list — which the dispatcher never produces, since a
successful parse always yields a nonempty argument list. -/
theorem C5_error_policy :
    (∀ t kw, (t, kw) ∈ COMMANDS → t ≠ HandlerTag.search →
      ∀ (args : List PyStr) (ctx : Ctx) (book : Book),
        isFourKindError (execHandler t args ctx book) = false) ∧
    (∀ (args : List PyStr) (ctx : Ctx) (book : Book), args ≠ [] →
      isFourKindError (execHandler HandlerTag.search args ctx book) = false) ∧
    (∀ (input : PyStr) (t : HandlerTag) (args : List PyStr) (s : Option PyStr),
      commandParser input = (some (t, args), s) → args ≠ []) := by
  refine ⟨?_, ?_, ?_⟩
  · intro t kw hmem hne args ctx book
    cases t with
    | show_list => exact error_handler_no_escape _ _ _ _ (show_list_body_not_bare args ctx book)
    | delete_phone => exact error_handler_no_escape _ _ _ _ (delete_phone_body_not_bare args ctx book)
    | days_to_birthday => exact error_handler_no_escape _ _ _ _ (days_to_birthday_body_not_bare args ctx book)
    | add_birthday => exact error_handler_no_escape _ _ _ _ (add_birthday_body_not_bare args ctx book)
    | add_phone => exact error_handler_no_escape _ _ _ _ (add_phone_body_not_bare args ctx book)
    | hello => exact error_handler_no_escape _ _ _ _ (hello_body_not_bare args ctx book)
    | show_all => exact error_handler_no_escape _ _ _ _ (show_all_body_not_bare args ctx book)
    | change => exact error_handler_no_escape _ _ _ _ (change_body_not_bare args ctx book)
    | phone => exact error_handler_no_escape _ _ _ _ (phone_body_not_bare args ctx book)
    | helper =>
      exact error_handler_no_escape (fun _ _ b => .ok (HELP_INSTRUCTIONS, b)) args ctx book
        (by simp)
    | delete_contact => exact error_handler_no_escape _ _ _ _ (delete_contact_body_not_bare args ctx book)
    | search => exact absurd rfl hne
    | add_email => exact error_handler_no_escape _ _ _ _ (add_email_body_not_bare args ctx book)
  · intro args ctx book hne
    rcases args with _ | ⟨a, rest⟩
    · exact absurd rfl hne
    · rfl
  · intro input t args s h
    exact parserLoop_args_ne_nil input COMMANDS (0, 1) [] t args s h

theorem C5_error_policy_witness :
    ((HandlerTag.hello, "hello".toList) ∈ COMMANDS ∧
      HandlerTag.hello ≠ HandlerTag.search ∧ (["x".toList] : List PyStr) ≠ []) ∧
    isFourKindError (execHandler HandlerTag.hello [] ⟨⟨2023, 1, 1⟩, []⟩ []) = false ∧
    isFourKindError (execHandler HandlerTag.search ["x".toList] ⟨⟨2023, 1, 1⟩, []⟩ []) = false :=
  ⟨by decide,
   C5_error_policy.1 HandlerTag.hello ("hello".toList) (by decide) (by decide) []
     ⟨⟨2023, 1, 1⟩, []⟩ [],
   C5_error_policy.2.1 ["x".toList] ⟨⟨2023, 1, 1⟩, []⟩ [] (by decide)⟩

/-- C5 counterexample: `search` is registered in the table but is NOT
decorated with `error_handler`; called with an empty argument list its
`args[0]` raises an uncaught `IndexError` — one of the four kinds the claim
says can never escape any handler. -/
theorem C5_error_policy_counterexample :
    (HandlerTag.search, "search".toList) ∈ COMMANDS ∧
    execHandler HandlerTag.search [] ⟨⟨2023, 1, 1⟩, []⟩ [] = .error .indexError ∧
    isFourKindError (execHandler HandlerTag.search [] ⟨⟨2023, 1, 1⟩, []⟩ []) = true := by
  refine ⟨by decide, by decide, by decide⟩
